import Mathlib

/-!
Shallow embedding of the GraphQL CRUD/subscription server in `src/index.js`.

Modelling conventions:
* Every resolver re-reads the backing JSON file (`readData`) and the source
  contains no write-back call, so each mutation is embedded as a pure function
  from the persisted document to a `MutOut` record holding the GraphQL result,
  the mutated in-memory document (which the source then discards), the
  persisted document after the call (always the input, since nothing is
  saved), and the list of `pubsub.publish` calls made.
* JavaScript id values are modelled by `JSValue` (a string, an integral
  number, or NaN); `===` is `jsStrictEq` and `parseInt` is `parseIntJS`
  restricted to decimal notation, which is all the server ever feeds it.
  Numeric ids in the JSON file are integers, so integral numbers suffice.
* GraphQL nullable arguments and optional input fields are `Option`; an
  absent patch field leaves the stored field unchanged, mirroring the
  object-spread merge `{...record, ...data}`.  Explicit GraphQL `null`
  (as opposed to an omitted field) is not modelled; no claim exercises it.
* `nanoid()` is modelled by passing the freshly generated id as an explicit
  argument to the create resolvers.
-/

namespace GQLApp

/-- JavaScript values that can appear in an id position: a string, an
integral number, or NaN (the result of a failed `parseInt`). -/
inductive JSValue where
  | str (s : String)
  | num (n : Int)
  | nan
  deriving Repr, DecidableEq

/-- JavaScript strict equality `===` on `JSValue`: values of different types
are never equal, and `NaN === x` is false for every `x`, including NaN. -/
def jsStrictEq : JSValue → JSValue → Bool
  | .str a, .str b => a == b
  | .num a, .num b => a == b
  | _, _ => false

/-- Numeric value of a list of decimal digit characters. -/
def digitsToNat (ds : List Char) : Nat :=
  ds.foldl (fun a c => 10 * a + (c.toNat - 48)) 0

/-- Model of JavaScript `parseInt` on decimal input: skip leading
whitespace, read an optional sign and then the longest run of decimal
digits; NaN when that run is empty.  (Hexadecimal `0x` prefixes are not
modelled; the server only ever passes plain ids.) -/
def parseIntJS (s : String) : JSValue :=
  let cs := s.toList.dropWhile Char.isWhitespace
  match cs with
  | '-' :: rest =>
    let ds := rest.takeWhile Char.isDigit
    if ds.isEmpty then JSValue.nan else JSValue.num (-(digitsToNat ds : Int))
  | '+' :: rest =>
    let ds := rest.takeWhile Char.isDigit
    if ds.isEmpty then JSValue.nan else JSValue.num (digitsToNat ds : Int)
  | _ =>
    let ds := cs.takeWhile Char.isDigit
    if ds.isEmpty then JSValue.nan else JSValue.num (digitsToNat ds : Int)

/-- Whether a `JSValue` is a string.  The data model stores ids as strings;
this lets hypotheses say so decidably. -/
def JSValue.isStr : JSValue → Bool
  | .str _ => true
  | _ => false

/-- JavaScript truthiness of a string-or-undefined value: `undefined` and
the empty string are falsy, every other string is truthy. -/
def jsTruthy : Option String → Bool
  | none => false
  | some s => s != ""

/-- A record of the `users` collection. -/
structure User where
  id : JSValue
  username : String
  email : String
  deriving Repr, DecidableEq

/-- A record of the `events` collection.  `title`, `desc` and `date` are
required by `createEventInput`; the remaining fields are optional there, so
a stored event may lack them. -/
structure Event where
  id : JSValue
  title : String
  desc : String
  date : String
  «from» : Option String
  «to» : Option String
  location_id : Option String
  user_id : Option String
  deriving Repr, DecidableEq

/-- A record of the `locations` collection; `lat`/`lng` are JS numbers,
modelled as rationals (they are only stored and compared, never computed
with). -/
structure Location where
  id : JSValue
  name : String
  desc : String
  lat : ℚ
  lng : ℚ
  deriving Repr, DecidableEq

/-- A record of the `participants` collection. -/
structure Participant where
  id : JSValue
  user_id : String
  event_id : String
  deriving Repr, DecidableEq

/-- The parsed backing JSON document: four named record collections. -/
structure Doc where
  users : List User
  events : List Event
  locations : List Location
  participants : List Participant
  deriving Repr, DecidableEq

/-- GraphQL `createUserInput`. -/
structure CreateUserInput where
  username : String
  email : String
  deriving Repr, DecidableEq

/-- GraphQL `updateUserInput` (no `id` field). -/
structure UpdateUserInput where
  username : Option String := none
  email : Option String := none
  deriving Repr, DecidableEq

/-- GraphQL `createEventInput`. -/
structure CreateEventInput where
  title : String
  desc : String
  date : String
  «from» : Option String := none
  «to» : Option String := none
  location_id : Option String := none
  user_id : Option String := none
  deriving Repr, DecidableEq

/-- GraphQL `updateEventInput` (no `id` field). -/
structure UpdateEventInput where
  title : Option String := none
  desc : Option String := none
  date : Option String := none
  «from» : Option String := none
  «to» : Option String := none
  location_id : Option String := none
  user_id : Option String := none
  deriving Repr, DecidableEq

/-- GraphQL `createLocationInput`. -/
structure CreateLocationInput where
  name : String
  desc : String
  lat : ℚ
  lng : ℚ
  deriving Repr, DecidableEq

/-- GraphQL `updateLocationInput`; unlike the user and event patch inputs it
admits an optional `id` field. -/
structure UpdateLocationInput where
  id : Option String := none
  name : Option String := none
  desc : Option String := none
  lat : Option ℚ := none
  lng : Option ℚ := none
  deriving Repr, DecidableEq

/-- GraphQL `createParticipantInput`. -/
structure CreateParticipantInput where
  user_id : String
  event_id : String
  deriving Repr, DecidableEq

/-- GraphQL `updateParticipantInput`; it too admits an optional `id` field. -/
structure UpdateParticipantInput where
  id : Option String := none
  user_id : Option String := none
  event_id : Option String := none
  deriving Repr, DecidableEq

/-- Object-spread merge `{...user, ...data}` for a user patch. -/
def mergeUser (u : User) (d : UpdateUserInput) : User :=
  { u with
    username := d.username.getD u.username
    email := d.email.getD u.email }

/-- Object-spread merge `{...event, ...data}` for an event patch. -/
def mergeEvent (e : Event) (d : UpdateEventInput) : Event :=
  { e with
    title := d.title.getD e.title
    desc := d.desc.getD e.desc
    date := d.date.getD e.date
    «from» := d.«from» <|> e.«from»
    «to» := d.«to» <|> e.«to»
    location_id := d.location_id <|> e.location_id
    user_id := d.user_id <|> e.user_id }

/-- Object-spread merge `{...location, ...data}` for a location patch; a
present `id` field overwrites the stored id (with a string value, since
GraphQL ID inputs arrive as strings). -/
def mergeLocation (l : Location) (d : UpdateLocationInput) : Location :=
  { l with
    id := match d.id with | some v => JSValue.str v | none => l.id
    name := d.name.getD l.name
    desc := d.desc.getD l.desc
    lat := d.lat.getD l.lat
    lng := d.lng.getD l.lng }

/-- Object-spread merge `{...participant, ...data}` for a participant
patch; a present `id` field overwrites the stored id. -/
def mergeParticipant (p : Participant) (d : UpdateParticipantInput) : Participant :=
  { p with
    id := match d.id with | some v => JSValue.str v | none => p.id
    user_id := d.user_id.getD p.user_id
    event_id := d.event_id.getD p.event_id }

/-- One `pubsub.publish(topic, payload)` call, tagged by topic. -/
inductive Publication where
  | userCreated (u : User)
  | userUpdated (u : User)
  | userDeleted (u : User)
  | eventCreated (e : Event)
  | eventUpdated (e : Event)
  | eventDeleted (e : Event)
  | locationCreated (l : Location)
  | locationUpdated (l : Location)
  | locationDeleted (l : Location)
  | participantAdded (p : Participant)
  | participantUpdated (p : Participant)
  | participantDeleted (p : Participant)
  deriving Repr, DecidableEq

/-- GraphQL `DeleteAllOutput`. -/
structure DeleteAllOutput where
  count : Nat
  deriving Repr, DecidableEq

/-- Everything observable about one mutation resolver call: the GraphQL
result (`Except` for the thrown not-found errors), the in-memory document
after the handler ran (the source discards it), the persisted document
after the call (always the input document: the source never writes the
file back), and the publications made. -/
structure MutOut (α : Type) where
  result : Except String α
  memDoc : Doc
  fileDoc : Doc
  published : List Publication

/-- Model of `Array.prototype.findIndex` that also returns the element
found, mirroring the source's `findIndex` followed by indexing. -/
def findWithIdx (p : α → Bool) : List α → Option (Nat × α)
  | [] => none
  | x :: xs =>
    if p x then some (0, x)
    else (findWithIdx p xs).map (fun q => (q.1 + 1, q.2))

namespace Query

/-- Resolver `Query.users`. -/
def users (d : Doc) : List User := d.users

/-- Resolver `Query.user`: `find` by `===` against the string path id. -/
def user (d : Doc) (id : String) : Option User :=
  d.users.find? (fun u => jsStrictEq u.id (JSValue.str id))

/-- Resolver `Query.events`. -/
def events (d : Doc) : List Event := d.events

/-- Resolver `Query.event`. -/
def event (d : Doc) (id : String) : Option Event :=
  d.events.find? (fun e => jsStrictEq e.id (JSValue.str id))

/-- Resolver `Query.locations`. -/
def locations (d : Doc) : List Location := d.locations

/-- Resolver `Query.location`. -/
def location (d : Doc) (id : String) : Option Location :=
  d.locations.find? (fun l => jsStrictEq l.id (JSValue.str id))

/-- Resolver `Query.participants`. -/
def participants (d : Doc) : List Participant := d.participants

/-- Resolver `Query.participant`. -/
def participant (d : Doc) (id : String) : Option Participant :=
  d.participants.find? (fun p => jsStrictEq p.id (JSValue.str id))

end Query

/-- The user record constructed by `addUser`: sequential id
`String(users.length + 1)` spread with the input fields. -/
def mkUser (numUsers : Nat) (data : CreateUserInput) : User :=
  { id := JSValue.str (toString (numUsers + 1))
    username := data.username
    email := data.email }

/-- Resolver `Mutation.addUser`: push to the in-memory copy, publish
`userCreated`, return the record; no write-back. -/
def addUser (d : Doc) (data : CreateUserInput) : MutOut User :=
  let user := mkUser d.users.length data
  { result := .ok user
    memDoc := { d with users := d.users ++ [user] }
    fileDoc := d
    published := [.userCreated user] }

/-- Resolver `Mutation.updateUser`: locate via
`user.id === parseInt(id)`, throw "User not found" when absent, otherwise
replace index with the spread merge and publish `userUpdated`. -/
def updateUser (d : Doc) (id : String) (data : UpdateUserInput) : MutOut User :=
  match findWithIdx (fun u => jsStrictEq u.id (parseIntJS id)) d.users with
  | none => { result := .error "User not found", memDoc := d, fileDoc := d, published := [] }
  | some (i, u) =>
    let updated := mergeUser u data
    { result := .ok updated
      memDoc := { d with users := d.users.set i updated }
      fileDoc := d
      published := [.userUpdated updated] }

/-- Resolver `Mutation.deleteUser`: locate via `user.id === parseInt(id)`,
throw when absent, otherwise splice the record out (in memory only) and
publish `userDeleted` with the removed record. -/
def deleteUser (d : Doc) (id : String) : MutOut User :=
  match findWithIdx (fun u => jsStrictEq u.id (parseIntJS id)) d.users with
  | none => { result := .error "User not found", memDoc := d, fileDoc := d, published := [] }
  | some (i, u) =>
    { result := .ok u
      memDoc := { d with users := d.users.eraseIdx i }
      fileDoc := d
      published := [.userDeleted u] }

/-- Resolver `Mutation.deleteAllUsers`: splice the whole in-memory array,
return the prior length; no publication, no write-back. -/
def deleteAllUsers (d : Doc) : MutOut DeleteAllOutput :=
  { result := .ok { count := d.users.length }
    memDoc := { d with users := [] }
    fileDoc := d
    published := [] }

/-- The event record constructed by `addEvent`: `{id: nanoid(), ...data}`,
with the generated id passed explicitly. -/
def mkEvent (newId : String) (data : CreateEventInput) : Event :=
  { id := JSValue.str newId
    title := data.title
    desc := data.desc
    date := data.date
    «from» := data.«from»
    «to» := data.«to»
    location_id := data.location_id
    user_id := data.user_id }

/-- Resolver `Mutation.addEvent`. -/
def addEvent (d : Doc) (newId : String) (data : CreateEventInput) : MutOut Event :=
  let event := mkEvent newId data
  { result := .ok event
    memDoc := { d with events := d.events ++ [event] }
    fileDoc := d
    published := [.eventCreated event] }

/-- Resolver `Mutation.updateEvent`: locate via
`event.id === parseInt(id)`, throw "Event not found" when absent,
otherwise merge and publish `eventUpdated`. -/
def updateEvent (d : Doc) (id : String) (data : UpdateEventInput) : MutOut Event :=
  match findWithIdx (fun e => jsStrictEq e.id (parseIntJS id)) d.events with
  | none => { result := .error "Event not found", memDoc := d, fileDoc := d, published := [] }
  | some (i, e) =>
    let updated := mergeEvent e data
    { result := .ok updated
      memDoc := { d with events := d.events.set i updated }
      fileDoc := d
      published := [.eventUpdated updated] }

/-- Resolver `Mutation.deleteEvent`. -/
def deleteEvent (d : Doc) (id : String) : MutOut Event :=
  match findWithIdx (fun e => jsStrictEq e.id (parseIntJS id)) d.events with
  | none => { result := .error "Event not found", memDoc := d, fileDoc := d, published := [] }
  | some (i, e) =>
    { result := .ok e
      memDoc := { d with events := d.events.eraseIdx i }
      fileDoc := d
      published := [.eventDeleted e] }

/-- Resolver `Mutation.deleteAllEvents`. -/
def deleteAllEvents (d : Doc) : MutOut DeleteAllOutput :=
  { result := .ok { count := d.events.length }
    memDoc := { d with events := [] }
    fileDoc := d
    published := [] }

/-- The location record constructed by `addLocation`. -/
def mkLocation (newId : String) (data : CreateLocationInput) : Location :=
  { id := JSValue.str newId
    name := data.name
    desc := data.desc
    lat := data.lat
    lng := data.lng }

/-- Resolver `Mutation.addLocation`. -/
def addLocation (d : Doc) (newId : String) (data : CreateLocationInput) : MutOut Location :=
  let location := mkLocation newId data
  { result := .ok location
    memDoc := { d with locations := d.locations ++ [location] }
    fileDoc := d
    published := [.locationCreated location] }

/-- Resolver `Mutation.updateLocation`: locate via
`location.id === parseInt(id)`, throw "Location not found" when absent,
otherwise merge (the patch may overwrite `id`) and publish
`locationUpdated`. -/
def updateLocation (d : Doc) (id : String) (data : UpdateLocationInput) : MutOut Location :=
  match findWithIdx (fun l => jsStrictEq l.id (parseIntJS id)) d.locations with
  | none => { result := .error "Location not found", memDoc := d, fileDoc := d, published := [] }
  | some (i, l) =>
    let updated := mergeLocation l data
    { result := .ok updated
      memDoc := { d with locations := d.locations.set i updated }
      fileDoc := d
      published := [.locationUpdated updated] }

/-- Resolver `Mutation.deleteLocation`. -/
def deleteLocation (d : Doc) (id : String) : MutOut Location :=
  match findWithIdx (fun l => jsStrictEq l.id (parseIntJS id)) d.locations with
  | none => { result := .error "Location not found", memDoc := d, fileDoc := d, published := [] }
  | some (i, l) =>
    { result := .ok l
      memDoc := { d with locations := d.locations.eraseIdx i }
      fileDoc := d
      published := [.locationDeleted l] }

/-- Resolver `Mutation.deleteAllLocations`. -/
def deleteAllLocations (d : Doc) : MutOut DeleteAllOutput :=
  { result := .ok { count := d.locations.length }
    memDoc := { d with locations := [] }
    fileDoc := d
    published := [] }

/-- The participant record constructed by `addParticipant`. -/
def mkParticipant (newId : String) (data : CreateParticipantInput) : Participant :=
  { id := JSValue.str newId
    user_id := data.user_id
    event_id := data.event_id }

/-- Resolver `Mutation.addParticipant`. -/
def addParticipant (d : Doc) (newId : String) (data : CreateParticipantInput) :
    MutOut Participant :=
  let participant := mkParticipant newId data
  { result := .ok participant
    memDoc := { d with participants := d.participants ++ [participant] }
    fileDoc := d
    published := [.participantAdded participant] }

/-- Resolver `Mutation.updateParticipant`: locate via
`participant.id === parseInt(id)`, throw "Participant not found" when
absent, otherwise merge (the patch may overwrite `id`) and publish
`participantUpdated`. -/
def updateParticipant (d : Doc) (id : String) (data : UpdateParticipantInput) :
    MutOut Participant :=
  match findWithIdx (fun p => jsStrictEq p.id (parseIntJS id)) d.participants with
  | none => { result := .error "Participant not found", memDoc := d, fileDoc := d, published := [] }
  | some (i, p) =>
    let updated := mergeParticipant p data
    { result := .ok updated
      memDoc := { d with participants := d.participants.set i updated }
      fileDoc := d
      published := [.participantUpdated updated] }

/-- Resolver `Mutation.deleteParticipant`. -/
def deleteParticipant (d : Doc) (id : String) : MutOut Participant :=
  match findWithIdx (fun p => jsStrictEq p.id (parseIntJS id)) d.participants with
  | none => { result := .error "Participant not found", memDoc := d, fileDoc := d, published := [] }
  | some (i, p) =>
    { result := .ok p
      memDoc := { d with participants := d.participants.eraseIdx i }
      fileDoc := d
      published := [.participantDeleted p] }

/-- Resolver `Mutation.deleteAllParticipants`. -/
def deleteAllParticipants (d : Doc) : MutOut DeleteAllOutput :=
  { result := .ok { count := d.participants.length }
    memDoc := { d with participants := [] }
    fileDoc := d
    published := [] }

/-- The `withFilter` predicate of `Subscription.eventCreated`:
`variables.user_id ? payload.eventCreated.user_id === variables.user_id : true`.
An `Option String` stands for the string-or-undefined JS values on both
sides; `==` on them coincides with `===` there. -/
def eventCreatedFilter (payload : Event) (varUserId : Option String) : Bool :=
  if jsTruthy varUserId then payload.user_id == varUserId else true

/-- The `withFilter` predicate of `Subscription.participantAdded`:
`variables.user_id ? payload.participantAdded.user_id === variables.user_id : true`. -/
def participantAddedFilter (payload : Participant) (varUserId : Option String) : Bool :=
  if jsTruthy varUserId then some payload.user_id == varUserId else true

/-- The eventCreated payloads out of a publication list that reach a
subscriber registered on topic "eventCreated" with argument `varUserId`:
topic match plus the `withFilter` predicate. -/
def eventCreatedDelivered (pubs : List Publication) (varUserId : Option String) : List Event :=
  pubs.filterMap fun p =>
    match p with
    | .eventCreated e => if eventCreatedFilter e varUserId then some e else none
    | _ => none

/-- The participantAdded payloads that reach a subscriber registered on
topic "participantAdded" with argument `varUserId`. -/
def participantAddedDelivered (pubs : List Publication) (varUserId : Option String) :
    List Participant :=
  pubs.filterMap fun p =>
    match p with
    | .participantAdded q => if participantAddedFilter q varUserId then some q else none
    | _ => none

/-- A small document with one record of each type, used to instantiate
hypothesised theorems at concrete inputs. -/
def sampleDoc : Doc :=
  { users := [⟨JSValue.str "1", "alice", "a@x.com"⟩]
    events := [⟨JSValue.str "E", "t", "d", "2024", none, none, none, some "1"⟩]
    locations := [⟨JSValue.str "L", "HQ", "office", 1, 2⟩]
    participants := [⟨JSValue.str "P", "1", "E"⟩] }

theorem findWithIdx_eq_none {p : α → Bool} {xs : List α}
    (h : ∀ x ∈ xs, p x = false) : findWithIdx p xs = none := by
  induction xs with
  | nil => rfl
  | cons x xs ih =>
    simp only [findWithIdx, h x (List.mem_cons_self x xs)]
    simp [ih (fun y hy => h y (List.mem_cons_of_mem x hy))]

/-- `parseInt` returns a number or NaN, never a string, so JS strict
equality between a string-valued id and any `parseInt` result is false. -/
theorem jsStrictEq_isStr_parseIntJS {v : JSValue} (hv : v.isStr = true) (t : String) :
    jsStrictEq v (parseIntJS t) = false := by
  cases v with
  | str s => simp only [parseIntJS]; split <;> split <;> rfl
  | num n => simp [JSValue.isStr] at hv
  | nan => simp [JSValue.isStr] at hv

/-- Claim C1: on an empty store, `addLocation({name:"HQ", desc:"Main office",
lat:1, lng:2})` returns the new record with the generated id, but the
mutation is never written back: a subsequent `Query.location` on the
persisted document returns `none` and `Query.locations` still lists nothing,
contradicting "create ... persists it so a subsequent read observes it". -/
theorem addLocation_new_record_not_observed_by_read :
    (addLocation ⟨[], [], [], []⟩ "L1" ⟨"HQ", "Main office", 1, 2⟩).result
      = Except.ok ⟨JSValue.str "L1", "HQ", "Main office", 1, 2⟩
    ∧ Query.location (addLocation ⟨[], [], [], []⟩ "L1" ⟨"HQ", "Main office", 1, 2⟩).fileDoc "L1"
      = none
    ∧ Query.locations (addLocation ⟨[], [], [], []⟩ "L1" ⟨"HQ", "Main office", 1, 2⟩).fileDoc
      = [] :=
  ⟨rfl, rfl, rfl⟩

/-- Claim C2: with the store holding the single user
{id:"1", username:"alice", email:"a@x.com"}, `updateUser("1",
{email:"alice@new.com"})` throws "User not found" instead of succeeding:
the stored string id "1" is compared with `parseInt("1")`, a number, and
JS strict equality between a string and a number is always false. -/
theorem updateUser_string_id_never_matches :
    (updateUser ⟨[⟨JSValue.str "1", "alice", "a@x.com"⟩], [], [], []⟩ "1"
        ⟨none, some "alice@new.com"⟩).result
      = Except.error "User not found"
    ∧ jsStrictEq (JSValue.str "1") (parseIntJS "1") = false :=
  ⟨rfl, rfl⟩

/-- Claim C5: with one persisted user, `deleteAllUsers` returns count 1 and
empties only the discarded in-memory array; the persisted document is
unchanged, so calling `deleteAllUsers` again immediately afterwards returns
count 1 rather than the claimed 0. -/
theorem deleteAllUsers_second_call_count_not_zero :
    (deleteAllUsers ⟨[⟨JSValue.str "1", "alice", "a@x.com"⟩], [], [], []⟩).result
      = Except.ok ⟨1⟩
    ∧ (deleteAllUsers ⟨[⟨JSValue.str "1", "alice", "a@x.com"⟩], [], [], []⟩).memDoc.users = []
    ∧ (deleteAllUsers
          (deleteAllUsers ⟨[⟨JSValue.str "1", "alice", "a@x.com"⟩], [], [], []⟩).fileDoc).result
      = Except.ok ⟨1⟩ :=
  ⟨rfl, rfl, rfl⟩

/-- Claim C6: with the store holding one event whose JSON id is the number
5, `deleteEvent("5")` succeeds (parseInt("5") === 5) and returns the
removed record's snapshot, but nothing is written back: the persisted
events collection still contains the record, so delete does not remove it
from the persisted collection.  The subsequent `Query.event("5")` does
return not-found, but only because the string path id "5" never strictly
equals the numeric stored id — it already returned not-found before the
delete. -/
theorem deleteEvent_removal_not_persisted :
    (deleteEvent ⟨[], [⟨JSValue.num 5, "t", "d", "2024", none, none, none, none⟩], [], []⟩
        "5").result
      = Except.ok ⟨JSValue.num 5, "t", "d", "2024", none, none, none, none⟩
    ∧ Query.events
        ((deleteEvent ⟨[], [⟨JSValue.num 5, "t", "d", "2024", none, none, none, none⟩], [], []⟩
            "5").fileDoc)
      = [⟨JSValue.num 5, "t", "d", "2024", none, none, none, none⟩]
    ∧ Query.event
        ((deleteEvent ⟨[], [⟨JSValue.num 5, "t", "d", "2024", none, none, none, none⟩], [], []⟩
            "5").fileDoc) "5"
      = none
    ∧ Query.event ⟨[], [⟨JSValue.num 5, "t", "d", "2024", none, none, none, none⟩], [], []⟩ "5"
      = none :=
  ⟨rfl, rfl, rfl, rfl⟩

/-- Claim C7: the four deleteAll resolvers contain no `pubsub.publish`
call: whatever the document, they publish nothing, so nothing new reaches
any subscriber of any topic — in particular the two filtered ones. -/
theorem deleteAll_publishes_nothing (d : Doc) (varUserId : Option String) :
    (deleteAllUsers d).published = []
    ∧ (deleteAllEvents d).published = []
    ∧ (deleteAllLocations d).published = []
    ∧ (deleteAllParticipants d).published = []
    ∧ eventCreatedDelivered (deleteAllEvents d).published varUserId = []
    ∧ participantAddedDelivered (deleteAllParticipants d).published varUserId = [] :=
  ⟨rfl, rfl, rfl, rfl, rfl, rfl⟩

/-- Claim C10: a subscriber whose `user_id` argument is the empty string
passes both topic filters on every payload — the ternary's truthiness test
treats "" exactly like an absent argument — so it receives every
notification regardless of the payload's own user_id. -/
theorem empty_string_subscriber_receives_everything (e : Event) (p : Participant) :
    eventCreatedFilter e (some "") = true
    ∧ participantAddedFilter p (some "") = true
    ∧ eventCreatedFilter e (some "") = eventCreatedFilter e none
    ∧ participantAddedFilter p (some "") = participantAddedFilter p none :=
  ⟨rfl, rfl, rfl, rfl⟩

/-- Claim C3, counterexample: a subscriber whose `user_id` argument is the
empty string receives the notification of an `addEvent` whose input
user_id is "x", although "x" differs from "": the claimed
"receives iff the input's user_id equals U" fails at U = "". -/
theorem eventCreated_empty_uid_delivery_counterexample :
    eventCreatedDelivered
        (addEvent ⟨[], [], [], []⟩ "E1" ⟨"t", "d", "2024", none, none, none, some "x"⟩).published
        (some "")
      = [⟨JSValue.str "E1", "t", "d", "2024", none, none, none, some "x"⟩]
    ∧ (⟨JSValue.str "E1", "t", "d", "2024", none, none, none, some "x"⟩ : Event).user_id
        ≠ some "" :=
  ⟨rfl, by decide⟩

/-- Claim C3, amended: provided the subscriber's user_id argument U is
non-empty, the subscriber on topic "eventCreated" receives the
notification of a subsequent `addEvent` exactly when the input's user_id
equals U (a subscriber supplying the empty string instead receives every
notification). -/
theorem eventCreated_delivery_iff_nonempty_uid (d : Doc) (newId : String)
    (data : CreateEventInput) (U : String) (h : U ≠ "") :
    eventCreatedDelivered (addEvent d newId data).published (some U)
      = if data.user_id = some U then [mkEvent newId data] else [] := by
  have ht : jsTruthy (some U) = true := by simp [jsTruthy, h]
  by_cases hc : data.user_id = some U <;>
    simp [eventCreatedDelivered, addEvent, mkEvent, eventCreatedFilter, ht, hc]

/-- Claim C3, witness for the amended theorem at a concrete input: the
subscriber with U = "x" receives exactly the event created with
user_id = "x". -/
theorem eventCreated_delivery_iff_nonempty_uid_witness :
    eventCreatedDelivered
        (addEvent ⟨[], [], [], []⟩ "E1" ⟨"t", "d", "2024", none, none, none, some "x"⟩).published
        (some "x")
      = [mkEvent "E1" ⟨"t", "d", "2024", none, none, none, some "x"⟩] := by
  have h := eventCreated_delivery_iff_nonempty_uid ⟨[], [], [], []⟩ "E1"
    ⟨"t", "d", "2024", none, none, none, some "x"⟩ "x" (by decide)
  simpa using h

/-- Claim C4: in a document whose ids are strings (the data model), when
the given id equals no record's id, each update resolver throws its
not-found error before touching anything: the in-memory document is
untouched, the persisted document is unchanged, and nothing is
published. -/
theorem update_missing_id_fails_atomically (d : Doc) (id : String)
    (du : UpdateUserInput) (de : UpdateEventInput)
    (dl : UpdateLocationInput) (dp : UpdateParticipantInput)
    (hu : ∀ u ∈ d.users, u.id.isStr = true ∧ u.id ≠ JSValue.str id)
    (he : ∀ e ∈ d.events, e.id.isStr = true ∧ e.id ≠ JSValue.str id)
    (hl : ∀ l ∈ d.locations, l.id.isStr = true ∧ l.id ≠ JSValue.str id)
    (hp : ∀ q ∈ d.participants, q.id.isStr = true ∧ q.id ≠ JSValue.str id) :
    updateUser d id du = ⟨.error "User not found", d, d, []⟩
    ∧ updateEvent d id de = ⟨.error "Event not found", d, d, []⟩
    ∧ updateLocation d id dl = ⟨.error "Location not found", d, d, []⟩
    ∧ updateParticipant d id dp = ⟨.error "Participant not found", d, d, []⟩ := by
  have pu : ∀ u ∈ d.users, jsStrictEq u.id (parseIntJS id) = false :=
    fun u h => jsStrictEq_isStr_parseIntJS (hu u h).1 id
  have pe : ∀ e ∈ d.events, jsStrictEq e.id (parseIntJS id) = false :=
    fun e h => jsStrictEq_isStr_parseIntJS (he e h).1 id
  have pl : ∀ l ∈ d.locations, jsStrictEq l.id (parseIntJS id) = false :=
    fun l h => jsStrictEq_isStr_parseIntJS (hl l h).1 id
  have pp : ∀ q ∈ d.participants, jsStrictEq q.id (parseIntJS id) = false :=
    fun q h => jsStrictEq_isStr_parseIntJS (hp q h).1 id
  refine ⟨?_, ?_, ?_, ?_⟩ <;>
    simp [updateUser, updateEvent, updateLocation, updateParticipant,
      findWithIdx_eq_none pu, findWithIdx_eq_none pe,
      findWithIdx_eq_none pl, findWithIdx_eq_none pp]

/-- Claim C4, witness: on `sampleDoc` (one record of each type, all with
string ids) the id "42" equals no stored id, and all four updates fail
atomically. -/
theorem update_missing_id_fails_atomically_witness :
    updateUser sampleDoc "42" ⟨none, none⟩
      = ⟨.error "User not found", sampleDoc, sampleDoc, []⟩
    ∧ updateEvent sampleDoc "42" ⟨none, none, none, none, none, none, none⟩
      = ⟨.error "Event not found", sampleDoc, sampleDoc, []⟩
    ∧ updateLocation sampleDoc "42" ⟨none, none, none, none, none⟩
      = ⟨.error "Location not found", sampleDoc, sampleDoc, []⟩
    ∧ updateParticipant sampleDoc "42" ⟨none, none, none⟩
      = ⟨.error "Participant not found", sampleDoc, sampleDoc, []⟩ :=
  update_missing_id_fails_atomically sampleDoc "42"
    ⟨none, none⟩ ⟨none, none, none, none, none, none, none⟩
    ⟨none, none, none, none, none⟩ ⟨none, none, none⟩
    (by decide) (by decide) (by decide) (by decide)

/-- Claim C8, counterexample: with the argument supplied as the empty
string, the participantAdded filter passes a payload whose user_id is "x",
so "passes exactly when the payload's user_id equals the argument" fails
for a supplied argument. -/
theorem participantAdded_filter_empty_passes_unequal :
    participantAddedFilter ⟨JSValue.str "P1", "x", "E1"⟩ (some "") = true
    ∧ (⟨JSValue.str "P1", "x", "E1"⟩ : Participant).user_id ≠ "" :=
  ⟨rfl, by decide⟩

/-- Claim C8, amended: both topic filters pass everything when the
user_id argument is absent, and compare by exact equality when the
supplied argument is non-empty (a supplied empty string also passes
everything, by the truthiness test). -/
theorem subscription_filters_absent_pass_nonempty_exact
    (e : Event) (p : Participant) (U : String) (h : U ≠ "") :
    eventCreatedFilter e none = true
    ∧ participantAddedFilter p none = true
    ∧ (eventCreatedFilter e (some U) = true ↔ e.user_id = some U)
    ∧ (participantAddedFilter p (some U) = true ↔ p.user_id = U) := by
  have ht : jsTruthy (some U) = true := by simp [jsTruthy, h]
  refine ⟨rfl, rfl, ?_, ?_⟩
  · simp [eventCreatedFilter, ht]
  · simp [participantAddedFilter, ht]

/-- Claim C8, witness for the amended theorem at a concrete payload pair
and the non-empty argument "1". -/
theorem subscription_filters_absent_pass_nonempty_exact_witness :
    eventCreatedFilter ⟨JSValue.str "E", "t", "d", "2024", none, none, none, some "1"⟩ none = true
    ∧ participantAddedFilter ⟨JSValue.str "P", "1", "E"⟩ none = true
    ∧ (eventCreatedFilter ⟨JSValue.str "E", "t", "d", "2024", none, none, none, some "1"⟩
          (some "1") = true
        ↔ (⟨JSValue.str "E", "t", "d", "2024", none, none, none, some "1"⟩ : Event).user_id
          = some "1")
    ∧ (participantAddedFilter ⟨JSValue.str "P", "1", "E"⟩ (some "1") = true
        ↔ (⟨JSValue.str "P", "1", "E"⟩ : Participant).user_id = "1") :=
  subscription_filters_absent_pass_nonempty_exact
    ⟨JSValue.str "E", "t", "d", "2024", none, none, none, some "1"⟩
    ⟨JSValue.str "P", "1", "E"⟩ "1" (by decide)

/-- Claim C9: the location and participant patch inputs admit an optional
`id` field, and on a successful update a patch carrying `id = v` flows
through the spread merge unprotected: the record stored back at the found
index and the returned record both carry id `v` (as a string), whatever id
argument located the record. -/
theorem update_patch_id_overwrites (d : Doc) (idL idP : String)
    (dl : UpdateLocationInput) (dp : UpdateParticipantInput)
    (iL iP : Nat) (l : Location) (p : Participant) (vL vP : String)
    (hL : findWithIdx (fun x => jsStrictEq x.id (parseIntJS idL)) d.locations = some (iL, l))
    (hP : findWithIdx (fun x => jsStrictEq x.id (parseIntJS idP)) d.participants = some (iP, p))
    (hvL : dl.id = some vL) (hvP : dp.id = some vP) :
    (updateLocation d idL dl).result = Except.ok (mergeLocation l dl)
    ∧ (mergeLocation l dl).id = JSValue.str vL
    ∧ (updateLocation d idL dl).memDoc.locations = d.locations.set iL (mergeLocation l dl)
    ∧ (updateParticipant d idP dp).result = Except.ok (mergeParticipant p dp)
    ∧ (mergeParticipant p dp).id = JSValue.str vP
    ∧ (updateParticipant d idP dp).memDoc.participants
        = d.participants.set iP (mergeParticipant p dp) := by
  refine ⟨?_, ?_, ?_, ?_, ?_, ?_⟩ <;>
    simp [updateLocation, updateParticipant, mergeLocation, mergeParticipant, hL, hP, hvL, hvP]

/-- Claim C9, witness: a store whose location has numeric JSON id 5 and
whose participant has numeric JSON id 7 (the only way the numeric lookup
succeeds); patches carrying id "newL" / id "newP" overwrite the stored
ids, and the resulting ids differ from the "5" / "7" arguments that
located the records. -/
theorem update_patch_id_overwrites_witness :
    ((updateLocation ⟨[], [], [⟨JSValue.num 5, "HQ", "office", 1, 2⟩], [⟨JSValue.num 7, "1", "E"⟩]⟩
          "5" ⟨some "newL", none, none, none, none⟩).result
        = Except.ok (mergeLocation ⟨JSValue.num 5, "HQ", "office", 1, 2⟩
            ⟨some "newL", none, none, none, none⟩)
      ∧ (mergeLocation ⟨JSValue.num 5, "HQ", "office", 1, 2⟩
            ⟨some "newL", none, none, none, none⟩).id = JSValue.str "newL"
      ∧ (updateLocation ⟨[], [], [⟨JSValue.num 5, "HQ", "office", 1, 2⟩],
            [⟨JSValue.num 7, "1", "E"⟩]⟩ "5"
            ⟨some "newL", none, none, none, none⟩).memDoc.locations
        = [⟨JSValue.num 5, "HQ", "office", 1, 2⟩].set 0
            (mergeLocation ⟨JSValue.num 5, "HQ", "office", 1, 2⟩
              ⟨some "newL", none, none, none, none⟩)
      ∧ (updateParticipant ⟨[], [], [⟨JSValue.num 5, "HQ", "office", 1, 2⟩],
            [⟨JSValue.num 7, "1", "E"⟩]⟩ "7" ⟨some "newP", none, none⟩).result
        = Except.ok (mergeParticipant ⟨JSValue.num 7, "1", "E"⟩ ⟨some "newP", none, none⟩)
      ∧ (mergeParticipant ⟨JSValue.num 7, "1", "E"⟩ ⟨some "newP", none, none⟩).id
        = JSValue.str "newP"
      ∧ (updateParticipant ⟨[], [], [⟨JSValue.num 5, "HQ", "office", 1, 2⟩],
            [⟨JSValue.num 7, "1", "E"⟩]⟩ "7" ⟨some "newP", none, none⟩).memDoc.participants
        = [⟨JSValue.num 7, "1", "E"⟩].set 0
            (mergeParticipant ⟨JSValue.num 7, "1", "E"⟩ ⟨some "newP", none, none⟩))
    ∧ JSValue.str "newL" ≠ JSValue.str "5"
    ∧ JSValue.str "newP" ≠ JSValue.str "7" :=
  ⟨update_patch_id_overwrites
      ⟨[], [], [⟨JSValue.num 5, "HQ", "office", 1, 2⟩], [⟨JSValue.num 7, "1", "E"⟩]⟩
      "5" "7" ⟨some "newL", none, none, none, none⟩ ⟨some "newP", none, none⟩
      0 0 ⟨JSValue.num 5, "HQ", "office", 1, 2⟩ ⟨JSValue.num 7, "1", "E"⟩ "newL" "newP"
      (by decide) (by decide) rfl rfl,
    by decide, by decide⟩

end GQLApp
